import Mathlib

/-!
Verification of the simple-jwt-generator core: a shallow embedding of
src/services/jwtService.ts and src/services/keyService.ts together with the
parts of the jose library behavior those files rely on (SignJWT, jwtVerify,
exportJWK, importPKCS8/importSPKI, the duration-string parser).

Modelling conventions:
  * RSA keys are records of their numeric components; the private exponent d
    is the private material.  An RS256 signature over a byte string is
    mathematically determined by the modulus, the public exponent and the
    signed bytes, so signatures are modelled as a record of those three.
  * A compact JWS string splits on the dot character into segments; each
    segment is modelled by what its base64url bytes decode to: a JOSE
    header, a JWT claims-set payload, a signature, or an undecodable blob.
    A raw input string with k dots is a list of k+1 segments.
  * JavaScript NaN arising from parseInt is modelled by Option (none = NaN);
    the JavaScript expression x || y on possibly-absent strings is jsOr.
  * Thrown exceptions become Except / Option results; the mutable singleton
    services become explicit state records threaded through the functions.
-/

/-- RSA private key: modulus n, public exponent e, private exponent d
(standing for all CRT private components of a PKCS8 key). -/
structure RSAPrivateKey where
  n : Nat
  e : Nat
  d : Nat
deriving DecidableEq, Repr

/-- RSA public key: modulus and public exponent, as in an SPKI artifact. -/
structure RSAPublicKey where
  n : Nat
  e : Nat
deriving DecidableEq, Repr

/-- The public half of a private key. -/
def RSAPrivateKey.toPublic (k : RSAPrivateKey) : RSAPublicKey :=
  { n := k.n, e := k.e }

/-- JavaScript x || y for a possibly-absent string: the fallback is used
when the value is absent or the empty string (falsy). -/
def jsOr (o : Option String) (dflt : String) : String :=
  match o with
  | some s => if s = "" then dflt else s
  | none => dflt

/-- Leading decimal-digit run of a character list. -/
def leadingDigits : List Char → List Char
  | c :: cs => if c.isDigit then c :: leadingDigits cs else []
  | [] => []

/-- Numeric value of a digit run. -/
def digitsToNat (ds : List Char) : Nat :=
  ds.foldl (fun a c => a * 10 + (c.toNat - 48)) 0

/-- JavaScript parseInt on a string: optional sign after leading spaces,
then a leading digit run; none models NaN (no digits). -/
def jsParseInt (s : String) : Option Int :=
  let cs := s.toList.dropWhile (fun c => c = ' ')
  let sign : Int := match cs.head? with
    | some '-' => -1
    | _ => 1
  let cs := match cs with
    | '-' :: rest => rest
    | '+' :: rest => rest
    | other => other
  let ds := leadingDigits cs
  if ds.isEmpty then none
  else some (sign * (digitsToNat ds : Int))

/-- Last character of a string, lowercased; none for the empty string
(String.prototype.slice(-1) of the empty string is the empty string). -/
def jsLastCharLower (s : String) : Option Char :=
  (s.toList.getLast?).map Char.toLower

/-- The base64url alphabet. -/
def b64Char (i : Nat) : Char :=
  "ABCDEFGHIJKLMNOPQRSTUVWXYZabcdefghijklmnopqrstuvwxyz0123456789-_".toList.getD i 'A'

/-- Big-endian minimal byte representation of a natural number; the first
argument is fuel (structural recursion), natToBytes supplies enough. -/
def natToBytesAux : Nat → Nat → List Nat
  | 0, _ => []
  | _ + 1, 0 => []
  | fuel + 1, n => natToBytesAux fuel (n / 256) ++ [n % 256]

/-- Big-endian minimal bytes of a natural number. -/
def natToBytes (n : Nat) : List Nat :=
  natToBytesAux n n

/-- Unpadded base64url of a byte list. -/
def b64urlEncode : List Nat → List Char
  | b1 :: b2 :: b3 :: rest =>
    b64Char (b1 / 4) :: b64Char (b1 % 4 * 16 + b2 / 16) ::
      b64Char (b2 % 16 * 4 + b3 / 64) :: b64Char (b3 % 64) :: b64urlEncode rest
  | [b1, b2] => [b64Char (b1 / 4), b64Char (b1 % 4 * 16 + b2 / 16), b64Char (b2 % 16 * 4)]
  | [b1] => [b64Char (b1 / 4), b64Char (b1 % 4 * 16)]
  | [] => []

/-- Unpadded base64url encoding of a big-endian natural number, as used for
the n and e members of an RSA JWK. -/
def base64url (n : Nat) : String :=
  String.mk (b64urlEncode (natToBytes n))

/-- A JOSE protected header as produced by generateToken:
setProtectedHeader with alg, typ and kid. -/
structure JoseHeader where
  alg : String
  typ : String
  kid : String
deriving DecidableEq, Repr

/-- A JWT aud claim: either a JSON string or a JSON array of strings. -/
inductive Aud where
  | str (a : String)
  | arr (l : List String)
deriving DecidableEq, Repr

/-- A JWT claims set restricted to the claims this service reads or writes;
absent members are none. -/
structure JosePayload where
  sub : Option String
  username : Option String
  email : Option String
  iat : Option Nat
  exp : Option Nat
  iss : Option String
  aud : Option Aud
deriving DecidableEq, Repr

/-- What the base64url bytes of one dot-separated segment of a compact
token decode to.  sig d1 d2 n e is a valid RS256 signature, by the key with
modulus n and exponent e, over the serialization of segments d1 and d2;
blob covers all bytes that are none of the other three. -/
inductive Seg where
  | hdr (h : JoseHeader)
  | pl (p : JosePayload)
  | sig (d1 d2 : Seg) (n e : Nat)
  | blob (raw : String)
deriving DecidableEq, Repr

/-- Errors thrown by the jose functions this service calls.  jwtExpired is
jose.errors.JWTExpired, jwtInvalid is jose.errors.JWTInvalid; the others
are the remaining distinct classes (none of which is an instance of
JWTExpired or JWTInvalid). -/
inductive JoseError where
  | jwsInvalid
  | jwsSignatureVerificationFailed
  | jwtInvalid
  | jwtClaimValidationFailed
  | jwtExpired
  | notSupported
deriving DecidableEq, Repr

/-- jose audience check: for a string aud, equality with the expected
audience; for an array aud, membership of the expected audience. -/
def audMatches (expected : String) : Option Aud → Bool
  | some (.str a) => a = expected
  | some (.arr l) => l.contains expected
  | none => false

/-- jose JWT claims-set validation as invoked by jwtVerify with issuer and
audience options: issuer, then audience, then exp (with zero clock
tolerance: a token is expired when exp is at or before the current epoch
second); an absent exp is not checked. -/
def validateClaims (issuer audience : String) (now : Nat) (p : JosePayload) :
    Except JoseError JosePayload :=
  if p.iss = some issuer then
    if audMatches audience p.aud then
      match p.exp with
      | some e => if e ≤ now then .error .jwtExpired else .ok p
      | none => .ok p
    else .error .jwtClaimValidationFailed
  else .error .jwtClaimValidationFailed

/-- jose.jwtVerify on a compact token (modelled as the list of its
dot-separated segments) under a public key and issuer/audience options.
Order as in jose: exactly-3-segments and protected-header decode
(JWSInvalid otherwise), header algorithm usable with the key, signature
over the first two segments, payload decode as a claims set (JWTInvalid
otherwise), then claim validation. -/
def joseJwtVerify (pub : RSAPublicKey) (issuer audience : String) (now : Nat)
    (token : List Seg) : Except JoseError JosePayload :=
  match token with
  | [Seg.hdr h, s1, s2] =>
    if h.alg = "RS256" then
      if s2 = Seg.sig (Seg.hdr h) s1 pub.n pub.e then
        match s1 with
        | Seg.pl p => validateClaims issuer audience now p
        | _ => .error .jwtInvalid
      else .error .jwsSignatureVerificationFailed
    else .error .notSupported
  | [_, _, _] => .error .jwsInvalid
  | _ => .error .jwsInvalid

/-- jose duration-string parser used by setExpirationTime: a digit run, an
optional space, and a unit word (case-insensitive); none models the thrown
TypeError on an unrecognized format.  Fractional values are not used by
this service and are not modelled. -/
def joseUnitSeconds : String → Option Nat
  | "sec" | "secs" | "second" | "seconds" | "s" => some 1
  | "minute" | "minutes" | "min" | "mins" | "m" => some 60
  | "hour" | "hours" | "hr" | "hrs" | "h" => some 3600
  | "day" | "days" | "d" => some 86400
  | "week" | "weeks" | "w" => some 604800
  | "year" | "years" | "yr" | "yrs" | "y" => some 31557600
  | _ => none

/-- Seconds denoted by a jose duration string such as 1h or 2 days. -/
def joseSecs (s : String) : Option Nat :=
  let cs := s.toList
  let ds := leadingDigits cs
  if ds.isEmpty then none
  else
    let rest := cs.drop ds.length
    let rest := match rest with
      | ' ' :: r => r
      | r => r
    match joseUnitSeconds (String.mk (rest.map Char.toLower)) with
    | some u => some (digitsToNat ds * u)
    | none => none

/-- Content of a PEM key artifact on disk: a parseable PKCS8 private key, a
parseable SPKI public key, or bytes that parse as neither. -/
inductive PemFile where
  | privPem (k : RSAPrivateKey)
  | pubPem (k : RSAPublicKey)
  | garbage (raw : String)
deriving DecidableEq, Repr

/-- The key storage directory: the contents of private-key.pem and
public-key.pem (none = file absent), and whether writes currently fail
(the storage fault injected for the persistence claims). -/
structure KeyStorage where
  privFile : Option PemFile
  pubFile : Option PemFile
  writesFail : Bool
deriving DecidableEq, Repr

/-- Errors thrown inside KeyService (each a distinct Error message in the
source). -/
inductive KeyError where
  | privateKeyNotInitialized
  | publicKeyNotInitialized
  | importFailed
deriving DecidableEq, Repr

/-- The mutable fields of the KeyService singleton. -/
structure KeyServiceState where
  privateKey : Option RSAPrivateKey
  publicKey : Option RSAPublicKey
  keyId : String
  keysDir : String
deriving DecidableEq, Repr

/-- KeyService as constructed: no keys, the fixed default key id, the
default keys directory. -/
def KeyServiceState.initial : KeyServiceState :=
  { privateKey := none
    publicKey := none
    keyId := "default-key-id"
    keysDir := "./keys" }

/-- jose.importPKCS8: parses a private-key PEM, throws otherwise. -/
def importPKCS8 : PemFile → Except KeyError RSAPrivateKey
  | .privPem k => .ok k
  | _ => .error .importFailed

/-- jose.importSPKI: parses a public-key PEM, throws otherwise. -/
def importSPKI : PemFile → Except KeyError RSAPublicKey
  | .pubPem k => .ok k
  | _ => .error .importFailed

/-- KeyService.loadKeys: read both PEM files, import the private key and
assign it, then import the public key and assign it; any failure is
rethrown (some error), leaving the assignments already made in place. -/
def loadKeys (st : KeyServiceState) (fs : KeyStorage) :
    KeyServiceState × Option KeyError :=
  match fs.privFile, fs.pubFile with
  | some pf, some qf =>
    match importPKCS8 pf with
    | .error e => (st, some e)
    | .ok priv =>
      let st1 := { st with privateKey := some priv }
      match importSPKI qf with
      | .error e => (st1, some e)
      | .ok pub => ({ st1 with publicKey := some pub }, none)
  | _, _ => (st, some .importFailed)

/-- KeyService.generateKeyPair: assign the freshly generated pair (the
fresh argument models the output of jose.generateKeyPair), then try to
export and persist both PEMs; an export/persist fault is caught and only
logged, continuing with in-memory keys, so this function never reports an
error. -/
def generateKeyPair (st : KeyServiceState) (fs : KeyStorage)
    (fresh : RSAPrivateKey × RSAPublicKey) : KeyServiceState × KeyStorage :=
  let st1 := { st with privateKey := some fresh.1, publicKey := some fresh.2 }
  if fs.writesFail then
    (st1, fs)
  else
    (st1, { fs with privFile := some (.privPem fresh.1),
                    pubFile := some (.pubPem fresh.2) })

/-- KeyService.initializeKeys: ensure the keys directory, test existence of
the two PEM files; when both exist, load them, otherwise generate (and try
to persist) a new pair.  The Option KeyError component is the rethrown
initialization failure, none on success. -/
def initializeKeys (st : KeyServiceState) (fs : KeyStorage)
    (fresh : RSAPrivateKey × RSAPublicKey) :
    KeyServiceState × KeyStorage × Option KeyError :=
  if fs.privFile.isSome && fs.pubFile.isSome then
    let r := loadKeys st fs
    (r.1, fs, r.2)
  else
    let r := generateKeyPair st fs fresh
    (r.1, r.2, none)

/-- KeyService.getPrivateKey: throws when the private key is unset. -/
def getPrivateKey (st : KeyServiceState) : Except KeyError RSAPrivateKey :=
  match st.privateKey with
  | none => .error .privateKeyNotInitialized
  | some k => .ok k

/-- KeyService.getPublicKey: throws when the public key is unset. -/
def getPublicKey (st : KeyServiceState) : Except KeyError RSAPublicKey :=
  match st.publicKey with
  | none => .error .publicKeyNotInitialized
  | some k => .ok k

/-- KeyService.getKeyId. -/
def getKeyId (st : KeyServiceState) : String :=
  st.keyId

/-- An RSA JWK as returned by jose.exportJWK on a public key. -/
structure JWK where
  kty : Option String
  n : Option String
  e : Option String
deriving DecidableEq, Repr

/-- jose.exportJWK on an RSA public key: kty RSA and the base64url-encoded
modulus and exponent; no private members are present. -/
def exportJWK (pub : RSAPublicKey) : JWK :=
  { kty := some "RSA", n := some (base64url pub.n), e := some (base64url pub.e) }

/-- One member of the published JWKS (types/index.ts JWKSKey). -/
structure JWKSKey where
  kty : String
  use : String
  key_ops : List String
  alg : String
  kid : String
  n : String
  e : String
deriving DecidableEq, Repr

/-- The published JWKS document (types/index.ts JWKS). -/
structure JWKS where
  keys : List JWKSKey
deriving DecidableEq, Repr

/-- KeyService.getJWKS: throws when the public key is unset; otherwise
exports the public key as a JWK and wraps its public members. -/
def getJWKS (st : KeyServiceState) : Except KeyError JWKS :=
  match st.publicKey with
  | none => .error .publicKeyNotInitialized
  | some pub =>
    let jwk := exportJWK pub
    .ok { keys := [{ kty := jsOr jwk.kty "RSA"
                     use := "sig"
                     key_ops := ["verify"]
                     alg := "RS256"
                     kid := st.keyId
                     n := jsOr jwk.n ""
                     e := jsOr jwk.e "" }] }

/-- getJWKS instrumented with a ghost counter of how many times the
document has been computed from the key (one exportJWK per successful
call in the source, which has no cache); the result component is exactly
getJWKS. -/
def getJWKSCounted (st : KeyServiceState) (computations : Nat) :
    Except KeyError JWKS × Nat :=
  match st.publicKey with
  | none => (.error .publicKeyNotInitialized, computations)
  | some pub =>
    let jwk := exportJWK pub
    (.ok { keys := [{ kty := jsOr jwk.kty "RSA"
                      use := "sig"
                      key_ops := ["verify"]
                      alg := "RS256"
                      kid := st.keyId
                      n := jsOr jwk.n ""
                      e := jsOr jwk.e "" }] }, computations + 1)

/-- The JWTService constructor fields: issuer, audience and expiration
duration string, with their environment-variable defaults. -/
structure JWTServiceConfig where
  issuer : String
  audience : String
  expirationTime : String
deriving DecidableEq, Repr

/-- JWTService as constructed with no environment overrides. -/
def JWTServiceConfig.default : JWTServiceConfig :=
  { issuer := "jwt-generator-app"
    audience := "jwt-generator-api"
    expirationTime := "1h" }

/-- JWTService.calculateExpirationSeconds: parseInt of the string, switch
on its lowercased last character; s/m/h/d scale the value, anything else
silently yields the default 3600 seconds (one hour).  none models a NaN
result (parseInt matched no digits on a recognized unit). -/
def calculateExpirationSeconds (expiration : String) : Option Int :=
  let timeValue := jsParseInt expiration
  match jsLastCharLower expiration with
  | some 's' => timeValue
  | some 'm' => timeValue.map (fun v => v * 60)
  | some 'h' => timeValue.map (fun v => v * 60 * 60)
  | some 'd' => timeValue.map (fun v => v * 24 * 60 * 60)
  | _ => some 3600

/-- The issuance response (types/index.ts TokenResponse); expires_in keeps
the Option Int model of a possibly-NaN JavaScript number. -/
structure TokenResponse where
  access_token : List Seg
  token_type : String
  expires_in : Option Int
deriving DecidableEq, Repr

/-- JWTService.generateToken rethrows every internal failure as the one
generic Token generation failed error. -/
inductive GenerateFailure where
  | tokenGenerationFailed
deriving DecidableEq, Repr

/-- JWTService.generateToken: fetch the signing key and key id, build the
protected header (RS256 / JWT / kid) and the claims set (caller claims,
iat = now, iss, aud, exp = now plus the configured duration as parsed by
jose), sign header.payload with the private key, and return the compact
token with Bearer type and calculateExpirationSeconds of the configured
duration.  Any thrown error (missing key, bad duration string) is caught
and rethrown as tokenGenerationFailed. -/
def generateToken (st : KeyServiceState) (cfg : JWTServiceConfig)
    (sub username email : String) (now : Nat) :
    Except GenerateFailure TokenResponse :=
  match st.privateKey with
  | none => .error .tokenGenerationFailed
  | some priv =>
    match joseSecs cfg.expirationTime with
    | none => .error .tokenGenerationFailed
    | some secs =>
      let header : JoseHeader := { alg := "RS256", typ := "JWT", kid := st.keyId }
      let payload : JosePayload :=
        { sub := some sub
          username := some username
          email := some email
          iat := some now
          exp := some (now + secs)
          iss := some cfg.issuer
          aud := some (.str cfg.audience) }
      .ok { access_token :=
              [Seg.hdr header, Seg.pl payload,
               Seg.sig (Seg.hdr header) (Seg.pl payload) priv.n priv.e]
            token_type := "Bearer"
            expires_in := calculateExpirationSeconds cfg.expirationTime }

/-- The three failures JWTService.verifyToken rethrows: Token has expired
(on jose JWTExpired), Invalid token (on jose JWTInvalid), and the generic
Token verification failed for every other thrown error. -/
inductive VerifyFailure where
  | tokenExpired
  | invalidToken
  | verificationFailed
deriving DecidableEq, Repr

/-- The verified-claims record verifyToken returns (types/index.ts
JWTPayload after the conversion: sub, username, email and aud coerced to
plain strings, iat/exp/iss passed through). -/
structure JWTPayload where
  sub : String
  username : String
  email : String
  iat : Option Nat
  exp : Option Nat
  iss : Option String
  aud : String
deriving DecidableEq, Repr

/-- The aud conversion in verifyToken: a string aud is kept, otherwise the
first array element or the empty string. -/
def audCollapse : Option Aud → String
  | some (.str a) => a
  | some (.arr l) => jsOr l.head? ""
  | none => ""

/-- JWTService.verifyToken: fetch the verification key (a throw here lands
in the generic catch branch), run jose.jwtVerify with the configured
issuer and audience, and on success coerce the payload into the JWTPayload
shape, defaulting absent sub/username/email to the empty string and
collapsing aud. -/
def verifyToken (st : KeyServiceState) (cfg : JWTServiceConfig) (now : Nat)
    (token : List Seg) : Except VerifyFailure JWTPayload :=
  match st.publicKey with
  | none => .error .verificationFailed
  | some pub =>
    match joseJwtVerify pub cfg.issuer cfg.audience now token with
    | .ok p =>
      .ok { sub := jsOr p.sub ""
            username := jsOr p.username ""
            email := jsOr p.email ""
            iat := p.iat
            exp := p.exp
            iss := p.iss
            aud := audCollapse p.aud }
    | .error .jwtExpired => .error .tokenExpired
    | .error .jwtInvalid => .error .invalidToken
    | .error _ => .error .verificationFailed

/-- A concrete demonstration key pair used by the closed instances. -/
def demoPriv : RSAPrivateKey := { n := 3233, e := 17, d := 413 }

/-- The public half of the demonstration pair. -/
def demoPub : RSAPublicKey := { n := 3233, e := 17 }

/-- A KeyService state after successful initialization with the
demonstration pair. -/
def demoReadyState : KeyServiceState :=
  { KeyServiceState.initial with privateKey := some demoPriv, publicKey := some demoPub }

/-- JavaScript s || with the empty-string fallback returns any present
string unchanged. -/
theorem jsOr_some_empty (s : String) : jsOr (some s) "" = s := by
  by_cases h : s = "" <;> simp [jsOr, h]

/-- C1: for every claim set (subject, username, email) and every
configured ttl that jose parses to T > 0 seconds, verifying immediately
after issuing succeeds and returns the claim fields augmented with the
configured issuer and audience, with issuedAt = now, expiresAt = now + T,
and expiresAt - issuedAt = T. -/
theorem c1_round_trip (st : KeyServiceState) (cfg : JWTServiceConfig)
    (sub username email : String) (now T : Nat) (priv : RSAPrivateKey)
    (hpriv : st.privateKey = some priv)
    (hpub : st.publicKey = some priv.toPublic)
    (hT : joseSecs cfg.expirationTime = some T)
    (hTpos : 0 < T) :
    ∃ resp : TokenResponse,
      generateToken st cfg sub username email now = .ok resp ∧
      verifyToken st cfg now resp.access_token =
        .ok { sub := sub, username := username, email := email,
              iat := some now, exp := some (now + T),
              iss := some cfg.issuer, aud := cfg.audience } ∧
      (now + T) - now = T := by
  have hlt : ¬ (now + T ≤ now) := by omega
  refine ⟨{ access_token :=
              [Seg.hdr { alg := "RS256", typ := "JWT", kid := st.keyId },
               Seg.pl { sub := some sub, username := some username, email := some email,
                        iat := some now, exp := some (now + T),
                        iss := some cfg.issuer, aud := some (.str cfg.audience) },
               Seg.sig (Seg.hdr { alg := "RS256", typ := "JWT", kid := st.keyId })
                 (Seg.pl { sub := some sub, username := some username, email := some email,
                           iat := some now, exp := some (now + T),
                           iss := some cfg.issuer, aud := some (.str cfg.audience) })
                 priv.n priv.e]
            token_type := "Bearer"
            expires_in := calculateExpirationSeconds cfg.expirationTime }, ?_, ?_, by omega⟩
  · simp [generateToken, hpriv, hT]
  · simp [verifyToken, hpub, joseJwtVerify, RSAPrivateKey.toPublic, validateClaims,
      audMatches, hlt, audCollapse, jsOr_some_empty]

/-- Witness for c1_round_trip: the concrete scenario of the spec, with the
default 1h configuration (3600 seconds) at epoch second 1000. -/
theorem c1_round_trip_witness :
    ∃ resp : TokenResponse,
      generateToken demoReadyState JWTServiceConfig.default "u1" "alice" "a@example.com" 1000
        = .ok resp ∧
      verifyToken demoReadyState JWTServiceConfig.default 1000 resp.access_token =
        .ok { sub := "u1", username := "alice", email := "a@example.com",
              iat := some 1000, exp := some (1000 + 3600),
              iss := some JWTServiceConfig.default.issuer,
              aud := JWTServiceConfig.default.audience } ∧
      (1000 + 3600) - 1000 = 3600 :=
  c1_round_trip demoReadyState JWTServiceConfig.default "u1" "alice" "a@example.com"
    1000 3600 demoPriv rfl rfl (by decide) (by decide)

/-- C2: private key material never serializes into a token or into the
JWKS document.  Replacing the private exponent of the signing key (the
private material) changes neither the issued token nor the JWKS, and the
JWKS entry is exactly the record of public components kty, use, key_ops,
alg, kid, n, e derived from the public key. -/
theorem c2_private_key_never_serialized (st : KeyServiceState)
    (priv : RSAPrivateKey) (d2 : Nat) (cfg : JWTServiceConfig)
    (sub username email : String) (now : Nat)
    (hpriv : st.privateKey = some priv) :
    generateToken { st with privateKey := some { priv with d := d2 } }
        cfg sub username email now
      = generateToken st cfg sub username email now ∧
    getJWKS { st with privateKey := some { priv with d := d2 } } = getJWKS st ∧
    ∀ pub, st.publicKey = some pub →
      getJWKS st = .ok { keys := [{ kty := "RSA", use := "sig", key_ops := ["verify"],
                                    alg := "RS256", kid := st.keyId,
                                    n := base64url pub.n, e := base64url pub.e }] } := by
  refine ⟨?_, rfl, ?_⟩
  · cases hs : joseSecs cfg.expirationTime <;> simp [generateToken, hpriv, hs]
  · intro pub hpub
    simp [getJWKS, hpub, exportJWK, jsOr_some_empty, jsOr]
    exact ⟨fun h => h.symm, fun h => h.symm⟩

/-- Witness for c2_private_key_never_serialized: the demonstration state
with the private exponent replaced by 999. -/
theorem c2_private_key_never_serialized_witness :
    generateToken { demoReadyState with privateKey := some { demoPriv with d := 999 } }
        JWTServiceConfig.default "u1" "alice" "a@example.com" 1000
      = generateToken demoReadyState JWTServiceConfig.default "u1" "alice" "a@example.com" 1000 ∧
    getJWKS { demoReadyState with privateKey := some { demoPriv with d := 999 } }
      = getJWKS demoReadyState ∧
    ∀ pub, demoReadyState.publicKey = some pub →
      getJWKS demoReadyState =
        .ok { keys := [{ kty := "RSA", use := "sig", key_ops := ["verify"],
                         alg := "RS256", kid := demoReadyState.keyId,
                         n := base64url pub.n, e := base64url pub.e }] } :=
  c2_private_key_never_serialized demoReadyState demoPriv 999
    JWTServiceConfig.default "u1" "alice" "a@example.com" 1000 rfl

/-- C5: a token issued with the 1s ttl configuration at epoch second t0,
verified at any time two or more seconds later, fails with the expiry
error (Token has expired, the image of jose JWTExpired). -/
theorem c5_expired_after_two_seconds (st : KeyServiceState) (cfg : JWTServiceConfig)
    (sub username email : String) (t0 now : Nat) (priv : RSAPrivateKey)
    (hpriv : st.privateKey = some priv)
    (hpub : st.publicKey = some priv.toPublic)
    (hexp : cfg.expirationTime = "1s")
    (hnow : t0 + 2 ≤ now) :
    ∃ resp : TokenResponse,
      generateToken st cfg sub username email t0 = .ok resp ∧
      verifyToken st cfg now resp.access_token = .error .tokenExpired := by
  have hT : joseSecs cfg.expirationTime = some 1 := by rw [hexp]; decide
  have hle : t0 + 1 ≤ now := by omega
  refine ⟨{ access_token :=
              [Seg.hdr { alg := "RS256", typ := "JWT", kid := st.keyId },
               Seg.pl { sub := some sub, username := some username, email := some email,
                        iat := some t0, exp := some (t0 + 1),
                        iss := some cfg.issuer, aud := some (.str cfg.audience) },
               Seg.sig (Seg.hdr { alg := "RS256", typ := "JWT", kid := st.keyId })
                 (Seg.pl { sub := some sub, username := some username, email := some email,
                           iat := some t0, exp := some (t0 + 1),
                           iss := some cfg.issuer, aud := some (.str cfg.audience) })
                 priv.n priv.e]
            token_type := "Bearer"
            expires_in := calculateExpirationSeconds cfg.expirationTime }, ?_, ?_⟩
  · simp [generateToken, hpriv, hT]
  · simp [verifyToken, hpub, joseJwtVerify, RSAPrivateKey.toPublic, validateClaims,
      audMatches, hle]

/-- Witness for c5_expired_after_two_seconds: issue at second 1000 with
the 1s configuration, verify at second 1002. -/
theorem c5_expired_after_two_seconds_witness :
    ∃ resp : TokenResponse,
      generateToken demoReadyState
          { issuer := "jwt-generator-app", audience := "jwt-generator-api",
            expirationTime := "1s" } "u1" "alice" "a@example.com" 1000 = .ok resp ∧
      verifyToken demoReadyState
          { issuer := "jwt-generator-app", audience := "jwt-generator-api",
            expirationTime := "1s" } 1002 resp.access_token = .error .tokenExpired :=
  c5_expired_after_two_seconds demoReadyState
    { issuer := "jwt-generator-app", audience := "jwt-generator-api",
      expirationTime := "1s" } "u1" "alice" "a@example.com" 1000 1002 demoPriv
    rfl rfl rfl (by omega)

/-- C10: whenever the underlying jose verification accepts a token with
claims set p, verifyToken returns a fully string-populated record: absent
sub/username/email become the empty string, a present sub is kept, an
absent aud becomes the empty string, an array aud collapses to its first
element (empty string when the array is empty), and a string aud is kept. -/
theorem c10_verified_claims_fully_populated (st : KeyServiceState)
    (cfg : JWTServiceConfig) (now : Nat) (token : List Seg)
    (pub : RSAPublicKey) (p : JosePayload)
    (hpub : st.publicKey = some pub)
    (hok : joseJwtVerify pub cfg.issuer cfg.audience now token = .ok p) :
    verifyToken st cfg now token =
      .ok { sub := jsOr p.sub "", username := jsOr p.username "", email := jsOr p.email "",
            iat := p.iat, exp := p.exp, iss := p.iss, aud := audCollapse p.aud } ∧
    (p.sub = none → jsOr p.sub "" = "") ∧
    (∀ s, p.sub = some s → jsOr p.sub "" = s) ∧
    (p.aud = none → audCollapse p.aud = "") ∧
    (∀ l, p.aud = some (.arr l) → audCollapse p.aud = jsOr l.head? "") ∧
    (∀ a, p.aud = some (.str a) → audCollapse p.aud = a) := by
  refine ⟨by simp [verifyToken, hpub, hok], ?_, ?_, ?_, ?_, ?_⟩
  · intro h
    simp [h, jsOr]
  · intro s h
    simp [h, jsOr_some_empty]
  · intro h
    simp [h, audCollapse]
  · intro l h
    simp [h, audCollapse]
  · intro a h
    simp [h, audCollapse]

/-- Witness for c10_verified_claims_fully_populated: an accepted token
whose payload has no sub, no username, no email, and an array audience
whose first element is the string x. -/
theorem c10_verified_claims_fully_populated_witness :
    verifyToken demoReadyState JWTServiceConfig.default 0
        [Seg.hdr { alg := "RS256", typ := "JWT", kid := "default-key-id" },
         Seg.pl { sub := none, username := none, email := none, iat := none,
                  exp := some 10, iss := some "jwt-generator-app",
                  aud := some (.arr ["x", "jwt-generator-api"]) },
         Seg.sig (Seg.hdr { alg := "RS256", typ := "JWT", kid := "default-key-id" })
           (Seg.pl { sub := none, username := none, email := none, iat := none,
                     exp := some 10, iss := some "jwt-generator-app",
                     aud := some (.arr ["x", "jwt-generator-api"]) }) 3233 17] =
      .ok { sub := jsOr none "", username := jsOr none "", email := jsOr none "",
            iat := none, exp := some 10, iss := some "jwt-generator-app",
            aud := audCollapse (some (.arr ["x", "jwt-generator-api"])) } :=
  (c10_verified_claims_fully_populated demoReadyState JWTServiceConfig.default 0
    [Seg.hdr { alg := "RS256", typ := "JWT", kid := "default-key-id" },
     Seg.pl { sub := none, username := none, email := none, iat := none,
              exp := some 10, iss := some "jwt-generator-app",
              aud := some (.arr ["x", "jwt-generator-api"]) },
     Seg.sig (Seg.hdr { alg := "RS256", typ := "JWT", kid := "default-key-id" })
       (Seg.pl { sub := none, username := none, email := none, iat := none,
                 exp := some 10, iss := some "jwt-generator-app",
                 aud := some (.arr ["x", "jwt-generator-api"]) }) 3233 17]
    demoPub
    { sub := none, username := none, email := none, iat := none,
      exp := some 10, iss := some "jwt-generator-app",
      aud := some (.arr ["x", "jwt-generator-api"]) }
    rfl rfl).1

/-- C3 counterexample: with exactly one artifact present (the private-key
PEM only), initializeKeys reports no error and silently regenerates,
overwriting the partial state with a fresh pair — it does not fail with a
KeyInitializationError. -/
theorem c3_counterexample :
    (let fs : KeyStorage :=
       { privFile := some (.privPem { n := 3233, e := 17, d := 413 }),
         pubFile := none, writesFail := false }
     let r := initializeKeys KeyServiceState.initial fs
       ({ n := 77, e := 7, d := 43 }, { n := 77, e := 7 })
     r.2.2 = none ∧
       r.1.privateKey = some { n := 77, e := 7, d := 43 } ∧
       r.2.1.privFile = some (.privPem { n := 77, e := 7, d := 43 }) ∧
       r.2.1.pubFile = some (.pubPem { n := 77, e := 7 })) := by
  decide

/-- C3 amended: initialization distinguishes only two storage states: when
both artifacts exist it loads them, and in every other case — neither
present or exactly one present — it generates a fresh pair, persists both
when writes succeed, and reports no error (silently regenerating over a
partial state). -/
theorem c3_two_way_initialization (st : KeyServiceState) (fs : KeyStorage)
    (fresh : RSAPrivateKey × RSAPublicKey) :
    (¬ (fs.privFile.isSome ∧ fs.pubFile.isSome) →
      initializeKeys st fs fresh =
        ({ st with privateKey := some fresh.1, publicKey := some fresh.2 },
         (if fs.writesFail then fs
          else { fs with privFile := some (.privPem fresh.1),
                         pubFile := some (.pubPem fresh.2) }),
         none)) ∧
    (∀ k q, fs.privFile = some (.privPem k) → fs.pubFile = some (.pubPem q) →
      initializeKeys st fs fresh =
        ({ st with privateKey := some k, publicKey := some q }, fs, none)) := by
  constructor
  · intro h
    have hb : (fs.privFile.isSome && fs.pubFile.isSome) = false := by
      cases h1 : fs.privFile.isSome <;> cases h2 : fs.pubFile.isSome <;> simp_all
    cases hw : fs.writesFail <;>
      simp [initializeKeys, hb, generateKeyPair, hw]
  · intro k q hk hq
    simp [initializeKeys, hk, hq, loadKeys, importPKCS8, importSPKI]

/-- Witness for c3_two_way_initialization: the generate branch on empty
storage and the load branch on fully populated storage. -/
theorem c3_two_way_initialization_witness :
    initializeKeys KeyServiceState.initial
        { privFile := none, pubFile := none, writesFail := false }
        ({ n := 77, e := 7, d := 43 }, { n := 77, e := 7 }) =
      ({ KeyServiceState.initial with
           privateKey := some { n := 77, e := 7, d := 43 },
           publicKey := some { n := 77, e := 7 } },
       { privFile := some (.privPem { n := 77, e := 7, d := 43 }),
         pubFile := some (.pubPem { n := 77, e := 7 }), writesFail := false },
       none) ∧
    initializeKeys KeyServiceState.initial
        { privFile := some (.privPem demoPriv), pubFile := some (.pubPem demoPub),
          writesFail := false }
        ({ n := 77, e := 7, d := 43 }, { n := 77, e := 7 }) =
      ({ KeyServiceState.initial with
           privateKey := some demoPriv, publicKey := some demoPub },
       { privFile := some (.privPem demoPriv), pubFile := some (.pubPem demoPub),
         writesFail := false },
       none) := by
  constructor
  · exact (c3_two_way_initialization KeyServiceState.initial
      { privFile := none, pubFile := none, writesFail := false }
      ({ n := 77, e := 7, d := 43 }, { n := 77, e := 7 })).1 (by decide)
  · exact (c3_two_way_initialization KeyServiceState.initial
      { privFile := some (.privPem demoPriv), pubFile := some (.pubPem demoPub),
        writesFail := false }
      ({ n := 77, e := 7, d := 43 }, { n := 77, e := 7 })).2 demoPriv demoPub rfl rfl

/-- C4 counterexample: with the unrecognized unit suffix w (1w parses to a
week in the signer), issuance does not reject the configuration: it
succeeds, and calculateExpirationSeconds silently substitutes the default
3600 seconds into expires_in. -/
theorem c4_counterexample :
    calculateExpirationSeconds "1w" = some 3600 ∧
    (generateToken demoReadyState
        { issuer := "jwt-generator-app", audience := "jwt-generator-api",
          expirationTime := "1w" } "u1" "alice" "a@example.com" 0).map
      TokenResponse.expires_in = .ok (some 3600) := by
  constructor
  · decide
  · rfl

/-- C4 amended: for every ttl string whose final character (lowercased)
is not one of s, m, h, d — including multi-character units jose itself
accepts, such as w — calculateExpirationSeconds silently returns the
default 3600 seconds; no ConfigurationError exists in the code. -/
theorem c4_silent_default_on_unknown_unit (expiration : String)
    (h : ∀ u ∈ (['s', 'm', 'h', 'd'] : List Char), jsLastCharLower expiration ≠ some u) :
    calculateExpirationSeconds expiration = some 3600 := by
  cases hc : jsLastCharLower expiration with
  | none => simp [calculateExpirationSeconds, hc]
  | some c =>
    have hs : c ≠ 's' := fun hh => h 's' (by simp) (hh ▸ hc)
    have hm : c ≠ 'm' := fun hh => h 'm' (by simp) (hh ▸ hc)
    have hh2 : c ≠ 'h' := fun hh => h 'h' (by simp) (hh ▸ hc)
    have hd : c ≠ 'd' := fun hh => h 'd' (by simp) (hh ▸ hc)
    simp [calculateExpirationSeconds, hc, hs, hm, hh2, hd]

/-- Witness for c4_silent_default_on_unknown_unit at the string 1w. -/
theorem c4_silent_default_on_unknown_unit_witness :
    (∀ u ∈ (['s', 'm', 'h', 'd'] : List Char), jsLastCharLower "1w" ≠ some u) ∧
    calculateExpirationSeconds "1w" = some 3600 :=
  ⟨by decide, c4_silent_default_on_unknown_unit "1w" (by decide)⟩

/-- C6 counterexample: a one-segment input (a raw string with no dot)
fails with the generic Token verification failed error — the very same
failure value a well-formed token with an invalid signature produces — so
no distinct MalformedTokenError outcome exists in the code. -/
theorem c6_counterexample :
    verifyToken demoReadyState JWTServiceConfig.default 0 [Seg.blob "x"] =
      .error .verificationFailed ∧
    verifyToken demoReadyState JWTServiceConfig.default 0
        [Seg.hdr { alg := "RS256", typ := "JWT", kid := "default-key-id" },
         Seg.pl { sub := some "u1", username := none, email := none, iat := none,
                  exp := some 10, iss := some "jwt-generator-app",
                  aud := some (.str "jwt-generator-api") },
         Seg.blob "tampered-signature"] =
      .error .verificationFailed :=
  ⟨rfl, rfl⟩

/-- C6 amended: any input that does not split into exactly 3 dot-separated
segments is rejected with the generic Token verification failed error (the
jose JWSInvalid lands in the catch-all branch, not in a distinct
malformed-token error), and verification never raises an unhandled fault:
it always returns one of the three typed failures. -/
theorem c6_malformed_generic_failure (st : KeyServiceState)
    (cfg : JWTServiceConfig) (now : Nat) (t : List Seg)
    (h : t.length ≠ 3) :
    verifyToken st cfg now t = .error .verificationFailed := by
  have hj : ∀ pub : RSAPublicKey,
      joseJwtVerify pub cfg.issuer cfg.audience now t = .error .jwsInvalid := by
    intro pub
    rcases t with _ | ⟨a, _ | ⟨b, _ | ⟨c, _ | ⟨d, rest⟩⟩⟩⟩
    · rfl
    · cases a <;> rfl
    · cases a <;> rfl
    · simp at h
    · cases a <;> rfl
  cases hp : st.publicKey with
  | none => simp [verifyToken, hp]
  | some pub => simp [verifyToken, hp, hj pub]

/-- Witness for c6_malformed_generic_failure at a zero-dot input. -/
theorem c6_malformed_generic_failure_witness :
    ([Seg.blob "not-a-token"] : List Seg).length ≠ 3 ∧
    verifyToken demoReadyState JWTServiceConfig.default 0 [Seg.blob "not-a-token"] =
      .error .verificationFailed :=
  ⟨by decide,
   c6_malformed_generic_failure demoReadyState JWTServiceConfig.default 0
     [Seg.blob "not-a-token"] (by decide)⟩

/-- C7 counterexample: two successive publish calls do return the same
document, but the document is recomputed by each call: the ghost
computation counter reaches 2, refuting recomputed at most once per
process. -/
theorem c7_counterexample :
    (getJWKSCounted demoReadyState 0).1 =
      (getJWKSCounted demoReadyState (getJWKSCounted demoReadyState 0).2).1 ∧
    (getJWKSCounted demoReadyState (getJWKSCounted demoReadyState 0).2).2 = 2 ∧
    ¬ (getJWKSCounted demoReadyState (getJWKSCounted demoReadyState 0).2).2 ≤ 1 :=
  ⟨rfl, rfl, by decide⟩

/-- C7 amended: within one process (one key state), any two publish calls
return identical documents, because getJWKS is a deterministic function of
the public key and key id — but the document is recomputed on every call
(the counter grows by one per call; the source has no cache). -/
theorem c7_deterministic_but_recomputed (st : KeyServiceState) (c : Nat)
    (pub : RSAPublicKey) (hpub : st.publicKey = some pub) :
    (getJWKSCounted st c).1 =
      (getJWKSCounted st (getJWKSCounted st c).2).1 ∧
    (getJWKSCounted st c).1 = getJWKS st ∧
    (getJWKSCounted st (getJWKSCounted st c).2).2 = c + 2 := by
  refine ⟨?_, ?_, ?_⟩ <;> simp [getJWKSCounted, getJWKS, hpub]

/-- Witness for c7_deterministic_but_recomputed on the demonstration
state, starting from a zero counter. -/
theorem c7_deterministic_but_recomputed_witness :
    (getJWKSCounted demoReadyState 0).1 =
      (getJWKSCounted demoReadyState (getJWKSCounted demoReadyState 0).2).1 ∧
    (getJWKSCounted demoReadyState 0).1 = getJWKS demoReadyState ∧
    (getJWKSCounted demoReadyState (getJWKSCounted demoReadyState 0).2).2 = 0 + 2 :=
  c7_deterministic_but_recomputed demoReadyState 0 demoPub rfl

/-- C8 counterexample: storage holding a valid private-key PEM and a
corrupt public-key PEM makes initialization fail (so it never completes
successfully), yet getPrivateKey afterwards succeeds, because loadKeys
assigned the private key before the public-key import threw. -/
theorem c8_counterexample :
    (initializeKeys KeyServiceState.initial
        { privFile := some (.privPem demoPriv), pubFile := some (.garbage "corrupt"),
          writesFail := false }
        ({ n := 77, e := 7, d := 43 }, { n := 77, e := 7 })).2.2 =
      some .importFailed ∧
    getPrivateKey (initializeKeys KeyServiceState.initial
        { privFile := some (.privPem demoPriv), pubFile := some (.garbage "corrupt"),
          writesFail := false }
        ({ n := 77, e := 7, d := 43 }, { n := 77, e := 7 })).1 =
      .ok demoPriv :=
  ⟨by decide, rfl⟩

/-- C8 amended: the getters track the individual key fields, not an
initialization state machine: on the freshly constructed service both fail
with their not-initialized errors, and after any initialization that
reports success both return key handles; but (per the counterexample) a
failed initialization can already leave the private key retrievable. -/
theorem c8_getters_track_key_fields (st : KeyServiceState) (fs : KeyStorage)
    (fresh : RSAPrivateKey × RSAPublicKey)
    (hsucc : (initializeKeys st fs fresh).2.2 = none) :
    (getPrivateKey KeyServiceState.initial = .error .privateKeyNotInitialized ∧
     getPublicKey KeyServiceState.initial = .error .publicKeyNotInitialized) ∧
    (∃ k, getPrivateKey (initializeKeys st fs fresh).1 = .ok k) ∧
    (∃ q, getPublicKey (initializeKeys st fs fresh).1 = .ok q) := by
  refine ⟨⟨rfl, rfl⟩, ?_⟩
  rcases hpf : fs.privFile with _ | pf <;> rcases hqf : fs.pubFile with _ | qf
  · cases hw : fs.writesFail <;>
      simp [initializeKeys, generateKeyPair, hpf, hqf, hw, getPrivateKey, getPublicKey]
  · cases hw : fs.writesFail <;>
      simp [initializeKeys, generateKeyPair, hpf, hqf, hw, getPrivateKey, getPublicKey]
  · cases hw : fs.writesFail <;>
      simp [initializeKeys, generateKeyPair, hpf, hqf, hw, getPrivateKey, getPublicKey]
  · cases pf with
    | privPem k =>
      cases qf with
      | pubPem q =>
        simp [initializeKeys, loadKeys, hpf, hqf, importPKCS8, importSPKI,
          getPrivateKey, getPublicKey]
      | privPem q2 =>
        simp [initializeKeys, loadKeys, hpf, hqf, importPKCS8, importSPKI] at hsucc
      | garbage r =>
        simp [initializeKeys, loadKeys, hpf, hqf, importPKCS8, importSPKI] at hsucc
    | pubPem k2 =>
      cases qf <;>
        simp [initializeKeys, loadKeys, hpf, hqf, importPKCS8, importSPKI] at hsucc
    | garbage r =>
      cases qf <;>
        simp [initializeKeys, loadKeys, hpf, hqf, importPKCS8, importSPKI] at hsucc

/-- Witness for c8_getters_track_key_fields: successful generation into
empty storage. -/
theorem c8_getters_track_key_fields_witness :
    (initializeKeys KeyServiceState.initial
        { privFile := none, pubFile := none, writesFail := false }
        (demoPriv, demoPub)).2.2 = none ∧
    ((getPrivateKey KeyServiceState.initial = .error .privateKeyNotInitialized ∧
      getPublicKey KeyServiceState.initial = .error .publicKeyNotInitialized) ∧
     (∃ k, getPrivateKey (initializeKeys KeyServiceState.initial
        { privFile := none, pubFile := none, writesFail := false }
        (demoPriv, demoPub)).1 = .ok k) ∧
     (∃ q, getPublicKey (initializeKeys KeyServiceState.initial
        { privFile := none, pubFile := none, writesFail := false }
        (demoPriv, demoPub)).1 = .ok q)) :=
  ⟨by decide,
   c8_getters_track_key_fields KeyServiceState.initial
     { privFile := none, pubFile := none, writesFail := false }
     (demoPriv, demoPub) (by decide)⟩

/-- C9 counterexample: with empty storage and failing writes, generating
a fresh pair cannot be persisted, yet initialization reports success with
both keys held in memory only and nothing written — the storage fault is
swallowed, not surfaced as a fatal startup error. -/
theorem c9_counterexample :
    initializeKeys KeyServiceState.initial
        { privFile := none, pubFile := none, writesFail := true }
        (demoPriv, demoPub) =
      ({ KeyServiceState.initial with
           privateKey := some demoPriv, publicKey := some demoPub },
       { privFile := none, pubFile := none, writesFail := true },
       none) := by
  decide

/-- C9 amended: an export/persist fault while storing a freshly generated
pair is caught and only logged — initialization completes successfully
with in-memory-only keys; only load-path faults (both artifacts present
but failing to parse) surface as initialization errors. -/
theorem c9_persist_faults_swallowed (st : KeyServiceState) (fs : KeyStorage)
    (fresh : RSAPrivateKey × RSAPublicKey) :
    (fs.privFile = none → fs.pubFile = none → fs.writesFail = true →
      initializeKeys st fs fresh =
        ({ st with privateKey := some fresh.1, publicKey := some fresh.2 }, fs, none)) ∧
    (∀ pf qf, fs.privFile = some pf → fs.pubFile = some qf →
      importPKCS8 pf = .error .importFailed →
      (initializeKeys st fs fresh).2.2 = some .importFailed) := by
  constructor
  · intro h1 h2 h3
    simp [initializeKeys, generateKeyPair, h1, h2, h3]
  · intro pf qf hpf hqf himp
    simp [initializeKeys, loadKeys, hpf, hqf, himp]

/-- Witness for c9_persist_faults_swallowed: the swallowed write fault on
empty storage, and a surfaced parse fault on populated storage. -/
theorem c9_persist_faults_swallowed_witness :
    initializeKeys KeyServiceState.initial
        { privFile := none, pubFile := none, writesFail := true }
        (demoPriv, demoPub) =
      ({ KeyServiceState.initial with
           privateKey := some demoPriv, publicKey := some demoPub },
       { privFile := none, pubFile := none, writesFail := true },
       none) ∧
    (initializeKeys KeyServiceState.initial
        { privFile := some (.garbage "bad"), pubFile := some (.pubPem demoPub),
          writesFail := false }
        (demoPriv, demoPub)).2.2 = some .importFailed := by
  constructor
  · exact (c9_persist_faults_swallowed KeyServiceState.initial
      { privFile := none, pubFile := none, writesFail := true }
      (demoPriv, demoPub)).1 rfl rfl rfl
  · exact (c9_persist_faults_swallowed KeyServiceState.initial
      { privFile := some (.garbage "bad"), pubFile := some (.pubPem demoPub),
        writesFail := false }
      (demoPriv, demoPub)).2 (.garbage "bad") (.pubPem demoPub) rfl rfl rfl
